import Mathlib

/-!
Verification of the configuration-and-bootstrap utilities of the
crowdstrike-data-collector-azure-function repository (src/src/utils.py).

The environment is modelled as a partial map from variable names to string
values (`String → Option String`).  The filesystem, as far as directory
creation is concerned, is modelled as the list of directory paths that
currently exist.  The process-wide logging registry is modelled as a total
map from logger names to logger states.

Python string primitives used by the source (`str.split(",")`,
`str.strip()`, `str.lower()`, the built-in `int(...)`) are embedded as
structurally recursive functions on the character list of the string, so
that every definition is executable and kernel-reducible.
-/

namespace CrowdStrikeCollector

/-- Python truthiness of an optional string: `not x` is true exactly when
the variable is absent (`None`) or holds the empty string. -/
def py_str_falsy : Option String → Bool
  | none => true
  | some s => s == ""

/-- Python `str.split(sep)` for a single-character separator: splits on every
occurrence of the separator and keeps empty fragments, so the result always
has one more element than the number of separators. -/
def py_split (sep : Char) : List Char → List (List Char)
  | [] => [[]]
  | c :: cs =>
    match py_split sep cs with
    | [] => [[]]
    | t :: ts => if c = sep then [] :: t :: ts else (c :: t) :: ts

/-- Python `str.strip()`: removes leading and trailing whitespace. -/
def py_strip (s : List Char) : List Char :=
  ((s.dropWhile Char.isWhitespace).reverse.dropWhile Char.isWhitespace).reverse

/-- Python `str.lower()`: per-character lower-casing. -/
def py_lower (s : String) : String :=
  String.mk (s.data.map Char.toLower)

/-- Decimal digit-string value. -/
def py_digits_val (l : List Char) : Nat :=
  l.foldl (fun a c => a * 10 + (c.toNat - 48)) 0

/-- Parse a non-empty all-digit character list, `none` otherwise. -/
def py_parse_nat (l : List Char) : Option Nat :=
  if l ≠ [] ∧ l.all Char.isDigit then some (py_digits_val l) else none

/-- Python's built-in `int(s)` on a decimal string: strips surrounding
whitespace, accepts an optional sign followed by at least one digit, and
raises `ValueError` (here: `none`) on anything else.  (Digit-group
underscores accepted by CPython are not modelled; no claim exercises them.) -/
def python_int (s : String) : Option Int :=
  match py_strip s.data with
  | [] => none
  | c :: cs =>
    if c = '-' then (py_parse_nat cs).map (fun n => -(n : Int))
    else if c = '+' then (py_parse_nat cs).map (fun n => (n : Int))
    else (py_parse_nat (c :: cs)).map (fun n => (n : Int))

/-- The configuration record returned by `get_env_config`. -/
structure EnvConfig where
  script_names : List String
  upload_to_bh : Bool
  max_retries : Int
  retry_delay : Int
deriving DecidableEq, Repr

/-- The `ValueError` message raised when `SCRIPT_FILE_NAMES` is missing. -/
def script_names_error : String :=
  "SCRIPT_FILE_NAMES environment variable not set. Provide comma-separated script filenames."

/-- `get_env_config` from src/src/utils.py.  The environment argument is the
effective process environment (after any `.env` loading, which only adds
variables before this code reads them).  Raising `ValueError` is modelled as
`Except.error` carrying the message. -/
def get_env_config (env : String → Option String) : Except String EnvConfig :=
  let script_file_names := env "SCRIPT_FILE_NAMES"
  if py_str_falsy script_file_names then
    Except.error script_names_error
  else
    let sfn := script_file_names.getD ""
    let script_names :=
      ((py_split ',' sfn.data).map (fun t => String.mk (py_strip t))).filter
        (fun t => t ≠ "")
    let upload_to_bh : Bool :=
      decide (py_lower ((env "UPLOAD_TO_BLOODHOUND").getD "false") ∈
        (["1", "true", "yes"] : List String))
    let max_retries : Int :=
      match python_int ((env "MAX_RETRIES").getD "10") with
      | some n => n
      | none => 10
    let retry_delay : Int :=
      match python_int ((env "RETRY_DELAY").getD "5") with
      | some n => n
      | none => 5
    Except.ok {
      script_names := script_names
      upload_to_bh := upload_to_bh
      max_retries := max_retries
      retry_delay := retry_delay
    }

/-- POSIX `os.path.join(a, b)`: an absolute second component discards the
first; otherwise the components are joined with a single separator. -/
def os_path_join (a b : String) : String :=
  if b.data.head? = some '/' then b
  else if a = "" then b
  else if a.data.getLast? = some '/' then a ++ b
  else a ++ "/" ++ b

/-- `os.makedirs(p, exist_ok=...)` over the set of existing directories:
creating an existing directory errors unless `exist_ok` is set, in which
case it is a no-op.  (Parent creation and permission failures are outside
the claims and not modelled.) -/
def makedirs (fs : List String) (p : String) (exist_ok : Bool) :
    Except String (List String) :=
  if p ∈ fs then
    if exist_ok then Except.ok fs else Except.error "FileExistsError"
  else Except.ok (p :: fs)

/-- `ensure_directories` from src/src/utils.py: picks the base directory from
the deployment marker `WEBSITE_INSTANCE_ID` (`/tmp` when present, the current
working directory otherwise), creates the `logs` and `rtr-result`
subdirectories with `exist_ok=True`, and returns their paths together with
the updated filesystem. -/
def ensure_directories (env : String → Option String) (cwd : String)
    (fs : List String) : Except String ((String × String) × List String) :=
  let is_azure_cloud := (env "WEBSITE_INSTANCE_ID").isSome
  let base_dir := if is_azure_cloud then "/tmp" else cwd
  let logs_dir := os_path_join base_dir "logs"
  let rtr_result_dir := os_path_join base_dir "rtr-result"
  match makedirs fs logs_dir true with
  | Except.error e => Except.error e
  | Except.ok fs1 =>
    match makedirs fs1 rtr_result_dir true with
    | Except.error e => Except.error e
    | Except.ok fs2 => Except.ok ((logs_dir, rtr_result_dir), fs2)

/-- Python `logging` severity constant `DEBUG`. -/
def logging_DEBUG : Nat := 10

/-- Python `logging` severity constant `INFO`. -/
def logging_INFO : Nat := 20

/-- An output target of a handler: the console stream or a file. -/
inductive HandlerTarget where
  | console : HandlerTarget
  | file : String → HandlerTarget
deriving DecidableEq, Repr

/-- A logging handler: target, minimum severity, and message format. -/
structure Handler where
  target : HandlerTarget
  level : Nat
  format : String
deriving DecidableEq, Repr

/-- The state of one named logger in the process-wide registry. -/
structure LoggerState where
  level : Nat
  handlers : List Handler
deriving DecidableEq, Repr

/-- The format string used by `setup_logger`. -/
def log_format : String :=
  "[%(asctime)s] %(levelname)s %(name)s:%(lineno)d - %(message)s"

/-- `setup_logger` from src/src/utils.py over the logging registry
(`logging.getLogger(name)` returns the registry entry): sets the logger
level to DEBUG, clears any existing handlers, attaches a console handler at
INFO, and, when a truthy `logfile` is given, a file handler at DEBUG, both
with the same format.  Returns the updated registry and the logger. -/
def setup_logger (reg : String → LoggerState) (name : String)
    (logfile : Option String) : (String → LoggerState) × LoggerState :=
  let logger := reg name
  let logger := { logger with level := logging_DEBUG }
  let logger :=
    if logger.handlers ≠ [] then { logger with handlers := [] } else logger
  let sh : Handler :=
    { target := HandlerTarget.console, level := logging_INFO, format := log_format }
  let logger := { logger with handlers := logger.handlers ++ [sh] }
  let logger :=
    if py_str_falsy logfile then logger
    else
      let fh : Handler :=
        { target := HandlerTarget.file (logfile.getD ""),
          level := logging_DEBUG, format := log_format }
      { logger with handlers := logger.handlers ++ [fh] }
  (fun n => if n = name then logger else reg n, logger)

/-! ## Helper lemmas -/

/-- When `SCRIPT_FILE_NAMES` holds a non-empty string, `get_env_config`
succeeds with the record computed from the environment. -/
theorem get_env_config_ok (env : String → Option String) (s : String)
    (h1 : env "SCRIPT_FILE_NAMES" = some s) (h2 : s ≠ "") :
    get_env_config env = Except.ok {
      script_names :=
        ((py_split ',' s.data).map (fun t => String.mk (py_strip t))).filter
          (fun t => t ≠ "")
      upload_to_bh :=
        decide (py_lower ((env "UPLOAD_TO_BLOODHOUND").getD "false") ∈
          (["1", "true", "yes"] : List String))
      max_retries :=
        match python_int ((env "MAX_RETRIES").getD "10") with
        | some n => n
        | none => 10
      retry_delay :=
        match python_int ((env "RETRY_DELAY").getD "5") with
        | some n => n
        | none => 5 } := by
  simp [get_env_config, h1, py_str_falsy, h2]

/-- Claim C1: when `SCRIPT_FILE_NAMES` is unset or empty, `get_env_config`
raises a `ValueError` (returns no record), and the message names the
variable `SCRIPT_FILE_NAMES` and the expected comma-separated format. -/
theorem get_env_config_missing_script_names (env : String → Option String)
    (h : py_str_falsy (env "SCRIPT_FILE_NAMES") = true) :
    get_env_config env = Except.error script_names_error ∧
    "SCRIPT_FILE_NAMES".data.IsInfix script_names_error.data ∧
    "comma-separated".data.IsInfix script_names_error.data := by
  refine ⟨?_, by decide, by decide⟩
  simp [get_env_config, h]

/-- Witness for C1: with `SCRIPT_FILE_NAMES` unset, the loader errors. -/
theorem get_env_config_missing_script_names_witness :
    get_env_config (fun _ => none) = Except.error script_names_error :=
  (get_env_config_missing_script_names (fun _ => none) (by decide)).1

/-- Claim C2: for a non-empty `SCRIPT_FILE_NAMES`, `script_names` is the
comma-split, whitespace-trimmed token list with empty entries discarded;
order is preserved (it is a sublist of the trimmed tokens), every kept entry
is non-empty, every non-empty trimmed token is kept, and duplicates are kept
(multiplicities of non-empty tokens are unchanged). -/
theorem get_env_config_script_names_parsing (env : String → Option String)
    (s : String) (h1 : env "SCRIPT_FILE_NAMES" = some s) (h2 : s ≠ "") :
    ∃ cfg, get_env_config env = Except.ok cfg ∧
      cfg.script_names =
        ((py_split ',' s.data).map (fun t => String.mk (py_strip t))).filter
          (fun t => t ≠ "") ∧
      cfg.script_names.Sublist
        ((py_split ',' s.data).map (fun t => String.mk (py_strip t))) ∧
      (∀ x ∈ cfg.script_names, x ≠ "") ∧
      (∀ x ∈ (py_split ',' s.data).map (fun t => String.mk (py_strip t)),
        x ≠ "" → x ∈ cfg.script_names) ∧
      (∀ x, x ≠ "" →
        cfg.script_names.count x =
          ((py_split ',' s.data).map (fun t => String.mk (py_strip t))).count x) := by
  refine ⟨_, get_env_config_ok env s h1 h2, rfl, List.filter_sublist _, ?_, ?_, ?_⟩
  · dsimp only
    intro x hx
    exact of_decide_eq_true (List.mem_filter.mp hx).2
  · dsimp only
    intro x hx hne
    exact List.mem_filter.mpr ⟨hx, decide_eq_true hne⟩
  · dsimp only
    intro x hne
    exact List.count_filter (by simpa using hne)

/-- Witness for C2: the input `"a.ps1, , b.ps1 ,c.ps1"` yields exactly
`["a.ps1", "b.ps1", "c.ps1"]`. -/
theorem get_env_config_script_names_parsing_witness :
    ∃ cfg, get_env_config
        (fun k => if k = "SCRIPT_FILE_NAMES" then some "a.ps1, , b.ps1 ,c.ps1" else none) =
        Except.ok cfg ∧
      cfg.script_names = ["a.ps1", "b.ps1", "c.ps1"] := by
  obtain ⟨cfg, hok, heq, -, -, -, -⟩ :=
    get_env_config_script_names_parsing
      (fun k => if k = "SCRIPT_FILE_NAMES" then some "a.ps1, , b.ps1 ,c.ps1" else none)
      "a.ps1, , b.ps1 ,c.ps1" (by decide) (by decide)
  exact ⟨cfg, hok, by rw [heq]; decide⟩

/-- Claim C3: with `SCRIPT_FILE_NAMES` validly set, a non-integer value of
`MAX_RETRIES` (resp. `RETRY_DELAY`) does not make `get_env_config` raise: it
returns the default 10 (resp. 5); the same defaults are returned when the
variables are unset. -/
theorem get_env_config_retry_soft_defaults (env : String → Option String)
    (s : String) (h1 : env "SCRIPT_FILE_NAMES" = some s) (h2 : s ≠ "") :
    ∃ cfg, get_env_config env = Except.ok cfg ∧
      (∀ m, env "MAX_RETRIES" = some m → python_int m = none →
        cfg.max_retries = 10) ∧
      (env "MAX_RETRIES" = none → cfg.max_retries = 10) ∧
      (∀ r, env "RETRY_DELAY" = some r → python_int r = none →
        cfg.retry_delay = 5) ∧
      (env "RETRY_DELAY" = none → cfg.retry_delay = 5) := by
  refine ⟨_, get_env_config_ok env s h1 h2, ?_, ?_, ?_, ?_⟩
  · intro m hm hpm
    simp [hm, hpm]
  · intro hm
    simp [hm]
    rfl
  · intro r hr hpr
    simp [hr, hpr]
  · intro hr
    simp [hr]
    rfl

/-- Witness for C3: `MAX_RETRIES="abc"` yields 10, and an unset
`RETRY_DELAY` yields 5. -/
theorem get_env_config_retry_soft_defaults_witness :
    ∃ cfg, get_env_config
        (fun k => if k = "SCRIPT_FILE_NAMES" then some "a.ps1"
          else if k = "MAX_RETRIES" then some "abc" else none) =
        Except.ok cfg ∧
      cfg.max_retries = 10 ∧ cfg.retry_delay = 5 := by
  obtain ⟨cfg, hok, hmr, -, -, hrd⟩ :=
    get_env_config_retry_soft_defaults
      (fun k => if k = "SCRIPT_FILE_NAMES" then some "a.ps1"
        else if k = "MAX_RETRIES" then some "abc" else none)
      "a.ps1" (by decide) (by decide)
  exact ⟨cfg, hok, hmr "abc" (by decide) (by decide), hrd (by decide)⟩

/-- Claim C4: with `SCRIPT_FILE_NAMES` validly set, `upload_to_bh` is true
iff the lower-cased value of `UPLOAD_TO_BLOODHOUND` (defaulting to "false"
when unset) is one of "1", "true", "yes". -/
theorem get_env_config_upload_flag (env : String → Option String)
    (s : String) (h1 : env "SCRIPT_FILE_NAMES" = some s) (h2 : s ≠ "") :
    ∃ cfg, get_env_config env = Except.ok cfg ∧
      (cfg.upload_to_bh = true ↔
        py_lower ((env "UPLOAD_TO_BLOODHOUND").getD "false") ∈
          (["1", "true", "yes"] : List String)) := by
  refine ⟨_, get_env_config_ok env s h1 h2, ?_⟩
  simp

/-- Witness for C4: `UPLOAD_TO_BLOODHOUND="YES"` yields `upload_to_bh = true`. -/
theorem get_env_config_upload_flag_witness :
    ∃ cfg, get_env_config
        (fun k => if k = "SCRIPT_FILE_NAMES" then some "a.ps1"
          else if k = "UPLOAD_TO_BLOODHOUND" then some "YES" else none) =
        Except.ok cfg ∧
      cfg.upload_to_bh = true := by
  obtain ⟨cfg, hok, hiff⟩ :=
    get_env_config_upload_flag
      (fun k => if k = "SCRIPT_FILE_NAMES" then some "a.ps1"
        else if k = "UPLOAD_TO_BLOODHOUND" then some "YES" else none)
      "a.ps1" (by decide) (by decide)
  exact ⟨cfg, hok, hiff.mpr (by decide)⟩

/-- With `exist_ok=True`, `makedirs` never errors and at most adds the path. -/
theorem makedirs_exist_ok_eq (fs : List String) (p : String) :
    makedirs fs p true = Except.ok (if p ∈ fs then fs else p :: fs) := by
  by_cases h : p ∈ fs <;> simp [makedirs, h]

/-- The created directory is present afterwards. -/
theorem mem_ite_cons_self (p : String) (fs : List String) :
    p ∈ (if p ∈ fs then fs else p :: fs) := by
  by_cases h : p ∈ fs <;> simp [h]

/-- Directory creation preserves existing directories. -/
theorem mem_ite_cons_of_mem {q : String} (p : String) {fs : List String}
    (h : q ∈ fs) : q ∈ (if p ∈ fs then fs else p :: fs) := by
  by_cases hp : p ∈ fs <;> simp [h, hp]

/-- `ensure_directories` always succeeds, returning the `logs` and
`rtr-result` subdirectories of the context-dependent base directory. -/
theorem ensure_directories_eq (env : String → Option String) (cwd : String)
    (fs : List String) :
    ensure_directories env cwd fs =
      Except.ok
        ((os_path_join (if (env "WEBSITE_INSTANCE_ID").isSome then "/tmp" else cwd) "logs",
          os_path_join (if (env "WEBSITE_INSTANCE_ID").isSome then "/tmp" else cwd) "rtr-result"),
         (fun l r =>
           (fun a => if r ∈ a then a else r :: a)
             (if l ∈ fs then fs else l :: fs))
           (os_path_join (if (env "WEBSITE_INSTANCE_ID").isSome then "/tmp" else cwd) "logs")
           (os_path_join (if (env "WEBSITE_INSTANCE_ID").isSome then "/tmp" else cwd) "rtr-result")) := by
  simp [ensure_directories, makedirs_exist_ok_eq]

/-- Claim C5: `ensure_directories` returns (logs directory, result
directory) in that order, under base `/tmp` when `WEBSITE_INSTANCE_ID` is
set to a non-empty value, and under the current working directory when it
is unset. -/
theorem ensure_directories_base_selection (env : String → Option String)
    (cwd : String) (fs : List String) :
    (∀ v, env "WEBSITE_INSTANCE_ID" = some v → v ≠ "" →
      ∃ fs2, ensure_directories env cwd fs =
        Except.ok (("/tmp/logs", "/tmp/rtr-result"), fs2)) ∧
    (env "WEBSITE_INSTANCE_ID" = none →
      ∃ fs2, ensure_directories env cwd fs =
        Except.ok ((os_path_join cwd "logs", os_path_join cwd "rtr-result"), fs2)) := by
  constructor
  · intro v hv _
    have h2 := ensure_directories_eq env cwd fs
    rw [hv] at h2
    exact ⟨_, h2⟩
  · intro hv
    have h2 := ensure_directories_eq env cwd fs
    rw [hv] at h2
    exact ⟨_, h2⟩

/-- Witness for C5: with `WEBSITE_INSTANCE_ID="abc123"` the paths are under
`/tmp`. -/
theorem ensure_directories_base_selection_witness :
    ∃ fs2, ensure_directories
        (fun k => if k = "WEBSITE_INSTANCE_ID" then some "abc123" else none)
        "/home/site/wwwroot" [] =
      Except.ok (("/tmp/logs", "/tmp/rtr-result"), fs2) :=
  (ensure_directories_base_selection
    (fun k => if k = "WEBSITE_INSTANCE_ID" then some "abc123" else none)
    "/home/site/wwwroot" []).1 "abc123" (by decide) (by decide)

/-- Claim C8: `ensure_directories` is idempotent: for a fixed environment
and working directory a second invocation on the resulting filesystem also
succeeds and returns the identical pair of paths (and leaves the
filesystem unchanged). -/
theorem ensure_directories_idempotent (env : String → Option String)
    (cwd : String) (fs : List String) :
    ∃ p fs1, ensure_directories env cwd fs = Except.ok (p, fs1) ∧
      ensure_directories env cwd fs1 = Except.ok (p, fs1) := by
  refine ⟨_, _, ensure_directories_eq env cwd fs, ?_⟩
  rw [ensure_directories_eq]
  have hl : os_path_join (if (env "WEBSITE_INSTANCE_ID").isSome then "/tmp" else cwd) "logs" ∈
      (fun l r => (fun a => if r ∈ a then a else r :: a) (if l ∈ fs then fs else l :: fs))
        (os_path_join (if (env "WEBSITE_INSTANCE_ID").isSome then "/tmp" else cwd) "logs")
        (os_path_join (if (env "WEBSITE_INSTANCE_ID").isSome then "/tmp" else cwd) "rtr-result") :=
    mem_ite_cons_of_mem _ (mem_ite_cons_self _ _)
  have hr : os_path_join (if (env "WEBSITE_INSTANCE_ID").isSome then "/tmp" else cwd) "rtr-result" ∈
      (fun l r => (fun a => if r ∈ a then a else r :: a) (if l ∈ fs then fs else l :: fs))
        (os_path_join (if (env "WEBSITE_INSTANCE_ID").isSome then "/tmp" else cwd) "logs")
        (os_path_join (if (env "WEBSITE_INSTANCE_ID").isSome then "/tmp" else cwd) "rtr-result") :=
    mem_ite_cons_self _ _
  simp only at hl hr ⊢
  rw [if_pos hl, if_pos hr]

/-- Claim C10: with `WEBSITE_INSTANCE_ID` set to the empty string,
`ensure_directories` still treats the context as the deployed cloud and
uses `/tmp`: detection checks presence only, not non-emptiness. -/
theorem ensure_directories_empty_marker (env : String → Option String)
    (cwd : String) (fs : List String)
    (h : env "WEBSITE_INSTANCE_ID" = some "") :
    ∃ fs2, ensure_directories env cwd fs =
      Except.ok (("/tmp/logs", "/tmp/rtr-result"), fs2) := by
  have h2 := ensure_directories_eq env cwd fs
  rw [h] at h2
  exact ⟨_, h2⟩

/-- Witness for C10: concrete empty-string marker. -/
theorem ensure_directories_empty_marker_witness :
    ∃ fs2, ensure_directories
        (fun k => if k = "WEBSITE_INSTANCE_ID" then some "" else none)
        "/wd" [] =
      Except.ok (("/tmp/logs", "/tmp/rtr-result"), fs2) :=
  ensure_directories_empty_marker
    (fun k => if k = "WEBSITE_INSTANCE_ID" then some "" else none)
    "/wd" [] (by decide)

/-- Claim C6: calling `setup_logger` twice with the same name leaves the
named registry entry with exactly the output targets of the second call:
one console handler at INFO plus, when the second file argument is truthy,
one file handler at DEBUG — nothing from the first call remains. -/
theorem setup_logger_reinit_replaces_handlers (reg : String → LoggerState)
    (name : String) (f1 f2 : Option String) :
    ((setup_logger (setup_logger reg name f1).1 name f2).1 name).handlers =
      Handler.mk HandlerTarget.console logging_INFO log_format ::
        (if py_str_falsy f2 then []
         else [Handler.mk (HandlerTarget.file (f2.getD "")) logging_DEBUG log_format]) := by
  by_cases h0 : (reg name).handlers = [] <;>
    cases hf1 : py_str_falsy f1 <;> cases hf2 : py_str_falsy f2 <;>
      simp [setup_logger, h0, hf1, hf2]

/-- Claim C7: the logger returned by `setup_logger` has level DEBUG, a
console handler at INFO, and exactly when a (non-empty) file path is
supplied also a file handler at DEBUG, both with the same format. -/
theorem setup_logger_levels_and_targets (reg : String → LoggerState)
    (name : String) (logfile : Option String) :
    ((setup_logger reg name logfile).2).level = logging_DEBUG ∧
    (∀ f, logfile = some f → f ≠ "" →
      ((setup_logger reg name logfile).2).handlers =
        [Handler.mk HandlerTarget.console logging_INFO log_format,
         Handler.mk (HandlerTarget.file f) logging_DEBUG log_format]) ∧
    (py_str_falsy logfile = true →
      ((setup_logger reg name logfile).2).handlers =
        [Handler.mk HandlerTarget.console logging_INFO log_format]) := by
  refine ⟨?_, ?_, ?_⟩
  · by_cases h0 : (reg name).handlers = [] <;>
      cases hf : py_str_falsy logfile <;> simp [setup_logger, h0, hf]
  · intro f hf hne
    subst hf
    have hfal : py_str_falsy (some f) = false := by
      simp [py_str_falsy, hne]
    by_cases h0 : (reg name).handlers = [] <;> simp [setup_logger, h0, hfal]
  · intro hf
    by_cases h0 : (reg name).handlers = [] <;> simp [setup_logger, h0, hf]

/-- Witness for C7: a fresh logger named "app" with file "log.txt" has
level DEBUG and exactly a console/INFO and a file/DEBUG handler. -/
theorem setup_logger_levels_and_targets_witness :
    ((setup_logger (fun _ => LoggerState.mk 0 []) "app" (some "log.txt")).2).level =
      logging_DEBUG ∧
    ((setup_logger (fun _ => LoggerState.mk 0 []) "app" (some "log.txt")).2).handlers =
      [Handler.mk HandlerTarget.console logging_INFO log_format,
       Handler.mk (HandlerTarget.file "log.txt") logging_DEBUG log_format] :=
  ⟨(setup_logger_levels_and_targets (fun _ => LoggerState.mk 0 []) "app" (some "log.txt")).1,
   (setup_logger_levels_and_targets (fun _ => LoggerState.mk 0 []) "app"
      (some "log.txt")).2.1 "log.txt" rfl (by decide)⟩

/-- `py_split` always produces at least one fragment. -/
theorem py_split_ne_nil (sep : Char) (s : List Char) : py_split sep s ≠ [] := by
  induction s with
  | nil => simp [py_split]
  | cons c cs ih =>
    rw [py_split]
    cases h : py_split sep cs with
    | nil => simp
    | cons t ts => by_cases hc : c = sep <;> simp [hc]

/-- Every character of a `py_split` fragment comes from the input and is
not the separator. -/
theorem py_split_chars (sep : Char) (s : List Char) :
    ∀ t ∈ py_split sep s, ∀ c ∈ t, c ∈ s ∧ c ≠ sep := by
  induction s with
  | nil =>
    intro t ht c hc
    simp [py_split] at ht
    subst ht
    simp at hc
  | cons a as ih =>
    intro t ht c hc
    rw [py_split] at ht
    cases h : py_split sep as with
    | nil => exact absurd h (py_split_ne_nil sep as)
    | cons t0 ts =>
      rw [h] at ht
      dsimp only at ht
      by_cases ha : a = sep
      · rw [if_pos ha] at ht
        rcases List.mem_cons.mp ht with h1 | h1
        · subst h1
          simp at hc
        · have := ih t (h ▸ h1) c hc
          exact ⟨List.mem_cons_of_mem a this.1, this.2⟩
      · rw [if_neg ha] at ht
        rcases List.mem_cons.mp ht with h1 | h1
        · subst h1
          rcases List.mem_cons.mp hc with h2 | h2
          · subst h2
            exact ⟨List.mem_cons_self _ _, ha⟩
          · have := ih t0 (h ▸ List.mem_cons_self t0 ts) c h2
            exact ⟨List.mem_cons_of_mem a this.1, this.2⟩
        · have := ih t (h ▸ List.mem_cons_of_mem t0 h1) c hc
          exact ⟨List.mem_cons_of_mem a this.1, this.2⟩

/-- Stripping a fragment of pure whitespace leaves nothing. -/
theorem py_strip_eq_nil (t : List Char) (h : ∀ c ∈ t, c.isWhitespace) :
    py_strip t = [] := by
  unfold py_strip
  rw [List.dropWhile_eq_nil_iff.mpr h]
  simp

/-- Claim C9: when `SCRIPT_FILE_NAMES` is a non-empty string made only of
whitespace and commas, `get_env_config` does not raise (the emptiness check
runs before trimming) and `script_names` is the empty list. -/
theorem get_env_config_whitespace_commas (env : String → Option String)
    (s : String) (h1 : env "SCRIPT_FILE_NAMES" = some s) (h2 : s ≠ "")
    (h3 : ∀ c ∈ s.data, c.isWhitespace ∨ c = ',') :
    ∃ cfg, get_env_config env = Except.ok cfg ∧ cfg.script_names = [] := by
  refine ⟨_, get_env_config_ok env s h1 h2, ?_⟩
  dsimp only
  rw [List.filter_eq_nil_iff]
  intro x hx
  obtain ⟨t, ht, rfl⟩ := List.mem_map.mp hx
  have hws : ∀ c ∈ t, c.isWhitespace := by
    intro c hc
    obtain ⟨hmem, hne⟩ := py_split_chars ',' s.data t ht c hc
    rcases h3 c hmem with hw | hcomma
    · exact hw
    · exact absurd hcomma hne
  rw [py_strip_eq_nil t hws]
  simp

/-- Witness for C9: `SCRIPT_FILE_NAMES=" ,"` yields an empty script list
without raising. -/
theorem get_env_config_whitespace_commas_witness :
    ∃ cfg, get_env_config
        (fun k => if k = "SCRIPT_FILE_NAMES" then some " ," else none) =
        Except.ok cfg ∧
      cfg.script_names = [] :=
  get_env_config_whitespace_commas
    (fun k => if k = "SCRIPT_FILE_NAMES" then some " ," else none)
    " ," (by decide) (by decide) (by decide)

end CrowdStrikeCollector
